import Mathlib

/-!
A verification development for the `green_ci` measurement core
(`cli/src/green_ci/measurement.py`).

Python floats are modelled as exact rationals (`ℚ`), so the decimal
constants of the source (`0.5`, `0.05`, `0.001`, `0.0005`, `0.000001`)
appear as the corresponding rational literals.  Fallible construction
(`__post_init__` raising `ValueError`) is modelled with `Except String`.
Interaction with the outside world (the Electricity Maps HTTP API, child
process launch and sampling, wall-clock timing, environment variables) is
modelled by passing the outcome of each external interaction as an
explicit argument, and by returning an explicit trace of the external
actions a call attempts (`Effect`), so that "no network access" and
"no process spawned" become statements about that trace.
-/

/-- One poll tick of the resource sampler: CPU utilisation percentage and
resident set size in bytes, as appended pairwise by the monitoring loop in
`EnergyMeasurer.measure_command`. -/
structure Sample where
  cpu_percent : ℚ
  memory_rss_bytes : ℤ
  deriving Repr, DecidableEq

/-- The outcome of the single HTTP request `get_carbon_intensity` can make:
either an exception (network error, timeout, or a body that fails to
parse), or a response with a status code and, for the parsed JSON body,
the value of the numeric `carbonIntensity` field when that key is
present. -/
inductive HttpOutcome where
  | exn : HttpOutcome
  | response (status : ℕ) (carbonIntensity : Option ℚ) : HttpOutcome
  deriving Repr, DecidableEq

/-- The outcome of launching and monitoring the child process in
`EnergyMeasurer.measure_command`: either `subprocess.Popen` succeeded and
the monitoring loop collected a (possibly empty) list of samples, or the
launch itself raised. -/
inductive ChildOutcome where
  | ran (samples : List Sample) : ChildOutcome
  | launchFailed : ChildOutcome
  deriving Repr, DecidableEq

/-- External actions a call attempts, in order: an HTTP request to the
carbon-intensity API, or launching a child process for a command. -/
inductive Effect where
  | networkRequest : Effect
  | spawnProcess (command : List String) : Effect
  deriving Repr, DecidableEq

/-- The `MeasurementResult` dataclass fields. -/
structure MeasurementResult where
  energy_kwh : ℚ
  co2_kg : ℚ
  duration_s : ℚ
  deriving Repr, DecidableEq

/-- Construction of a `MeasurementResult`, including the `__post_init__`
validation: each field is checked for negativity in source order and the
first failing check raises `ValueError` with its message. -/
def mk_measurement_result (energy_kwh co2_kg duration_s : ℚ) :
    Except String MeasurementResult :=
  if energy_kwh < 0 then .error "Energy consumption cannot be negative"
  else if co2_kg < 0 then .error "CO2 emissions cannot be negative"
  else if duration_s < 0 then .error "Duration cannot be negative"
  else .ok ⟨energy_kwh, co2_kg, duration_s⟩

/-- `MeasurementResult.to_dict`: the dictionary with exactly the three
keys `energy_kwh`, `co2_kg`, `duration_s`, modelled as an association
list in insertion order. -/
def MeasurementResult.to_dict (r : MeasurementResult) : List (String × ℚ) :=
  [("energy_kwh", r.energy_kwh), ("co2_kg", r.co2_kg), ("duration_s", r.duration_s)]

/-- `ElectricityMapsClient.DEFAULT_CARBON_INTENSITY = 400` gCO2/kWh. -/
def DEFAULT_CARBON_INTENSITY : ℚ := 400

/-- `ElectricityMapsClient.get_carbon_intensity`.  `api_key = none` models
a falsy `self.api_key` (no key configured).  The returned trace records
whether the `requests.get` call was attempted.  With no key the default is
returned with an empty trace; otherwise the request is attempted and the
result is the `carbonIntensity` field of a 200 response when present, and
the default on a missing field, a non-200 status, or an exception. -/
def ElectricityMapsClient.get_carbon_intensity (api_key : Option String)
    (net : HttpOutcome) : ℚ × List Effect :=
  match api_key with
  | none => (DEFAULT_CARBON_INTENSITY, [])
  | some _ =>
    match net with
    | .exn => (DEFAULT_CARBON_INTENSITY, [Effect.networkRequest])
    | .response status body =>
      if status = 200 then
        (body.getD DEFAULT_CARBON_INTENSITY, [Effect.networkRequest])
      else
        (DEFAULT_CARBON_INTENSITY, [Effect.networkRequest])

/-- The CPU-percentage list built by the monitoring loop (or the fallback
`[5.0]` when launch failed). -/
def ChildOutcome.cpu_usage_samples : ChildOutcome → List ℚ
  | .ran samples => samples.map Sample.cpu_percent
  | .launchFailed => [5]

/-- The RSS-bytes list built by the monitoring loop (or the fallback
`[50 * 1024 * 1024]` when launch failed). -/
def ChildOutcome.memory_usage_samples : ChildOutcome → List ℤ
  | .ran samples => samples.map Sample.memory_rss_bytes
  | .launchFailed => [50 * 1024 * 1024]

/-- `EnergyMeasurer._calculate_energy_consumption`: if either sample list
is empty use the fallback averages (5% CPU, 0.05 GB), otherwise the means
of the two lists (memory converted from bytes to GB by `1024 ** 3`); then
the fixed linear power model and the conversion to kWh, floored at
`0.000001`. -/
def calculate_energy_consumption (cpu_samples : List ℚ) (memory_samples : List ℤ)
    (duration : ℚ) : ℚ :=
  let avgs : ℚ × ℚ :=
    if cpu_samples.isEmpty || memory_samples.isEmpty then
      (5, 1/20)
    else
      (cpu_samples.sum / (cpu_samples.length : ℚ),
       ((memory_samples.sum : ℚ) / (memory_samples.length : ℚ)) / 1024 ^ 3)
  let avg_cpu := avgs.1
  let avg_memory_gb := avgs.2
  let cpu_power_w := 15 + avg_cpu * (1/2)
  let memory_power_w := avg_memory_gb * 3
  let base_power_w : ℚ := 20
  let total_power_w := cpu_power_w + memory_power_w + base_power_w
  let energy_kwh := (total_power_w * (duration / 3600)) / 1000
  max energy_kwh (1/1000000)

/-- `EnergyMeasurer.measure_command`: obtain the carbon intensity (its own
failure handling is inside `get_carbon_intensity`, which never raises),
attempt to launch and monitor the child (a failed launch is absorbed and
replaced by the synthetic sample lists), measure the elapsed duration,
estimate energy, compute `co2_kg = energy_kwh * (carbon_intensity / 1000)`
and construct the validated result. -/
def EnergyMeasurer.measure_command (api_key : Option String) (net : HttpOutcome)
    (command : List String) (child : ChildOutcome) (duration : ℚ) :
    Except String MeasurementResult × List Effect :=
  let ci := ElectricityMapsClient.get_carbon_intensity api_key net
  let energy_kwh :=
    calculate_energy_consumption child.cpu_usage_samples
      child.memory_usage_samples duration
  let co2_kg := energy_kwh * (ci.1 / 1000)
  (mk_measurement_result energy_kwh co2_kg duration,
   ci.2 ++ [Effect.spawnProcess command])

/-- `StubMeasurer.measure_command`: runs the child (any failure of the
child is absorbed by the bare `try`/`except: pass`, so the result does not
depend on its outcome) and returns the constant energy and CO2 figures
with the measured wall-clock duration. -/
def StubMeasurer.measure_command (command : List String) (_child : ChildOutcome)
    (duration : ℚ) : Except String MeasurementResult × List Effect :=
  (mk_measurement_result (1/1000) (1/2000) duration, [Effect.spawnProcess command])

/-- `measure_command_execution`: reject a falsy command (`None` or the
empty list) before anything else happens, then dispatch on the
`GREEN_CI_TEST` environment variable (`test_env`): the stub strategy
exactly when its value is `"1"`, the real strategy otherwise. -/
def measure_command_execution (test_env api_key : Option String)
    (net : HttpOutcome) (child : ChildOutcome) (duration : ℚ)
    (command : Option (List String)) :
    Except String MeasurementResult × List Effect :=
  match command with
  | none => (.error "Command cannot be empty", [])
  | some cmd =>
    if cmd.isEmpty then (.error "Command cannot be empty", [])
    else if test_env = some "1" then
      StubMeasurer.measure_command cmd child duration
    else
      EnergyMeasurer.measure_command api_key net cmd child duration

/-- The estimator as §4.3 of the specification words it, over a single
list of samples: fallback averages on an empty list, otherwise the means
(memory divided by `2 ^ 30`), the linear power model, and the floor. -/
def estimate_from_spec (samples : List Sample) (duration_s : ℚ) : ℚ :=
  let avg_cpu : ℚ :=
    if samples.isEmpty then 5
    else (samples.map Sample.cpu_percent).sum / (samples.length : ℚ)
  let avg_memory_gb : ℚ :=
    if samples.isEmpty then 1/20
    else ((samples.map Sample.memory_rss_bytes).sum : ℚ) / (samples.length : ℚ) / 2 ^ 30
  let total_power_w := (15 + avg_cpu * (1/2)) + avg_memory_gb * 3 + 20
  max (total_power_w * (duration_s / 3600) / 1000) (1/1000000)

/-- An outcome of the HTTP request on which `get_carbon_intensity` falls
back to the default: an exception, a non-200 status, or a 200 response
whose body lacks the numeric field. -/
def HttpOutcome.isFailure : HttpOutcome → Bool
  | .exn => true
  | .response status body => status ≠ 200 || body.isNone

/-- Helper: the validator accepts exactly the given non-negative fields. -/
theorem mk_measurement_result_ok (e c d : ℚ) (he : 0 ≤ e) (hc : 0 ≤ c) (hd : 0 ≤ d) :
    mk_measurement_result e c d = .ok ⟨e, c, d⟩ := by
  unfold mk_measurement_result
  rw [if_neg (not_lt.mpr he), if_neg (not_lt.mpr hc), if_neg (not_lt.mpr hd)]

/-- Helper: a successfully constructed result carries exactly the fields
passed to the constructor. -/
theorem mk_measurement_result_ok_inv (e c d : ℚ) (r : MeasurementResult)
    (h : mk_measurement_result e c d = .ok r) : r = ⟨e, c, d⟩ := by
  unfold mk_measurement_result at h
  split_ifs at h
  all_goals simp_all

/-- Helper: no validation failure carries the empty-command message. -/
theorem mk_measurement_result_ne_cmd_error (e c d : ℚ) :
    mk_measurement_result e c d ≠ .error "Command cannot be empty" := by
  unfold mk_measurement_result
  split_ifs
  all_goals simp

/-- Helper: the estimator's floor. -/
theorem floor_le_calculate (cpu : List ℚ) (mem : List ℤ) (d : ℚ) :
    1/1000000 ≤ calculate_energy_consumption cpu mem d := by
  unfold calculate_energy_consumption
  exact le_max_right _ _

/-- Helper: with a non-negative energy and CO2 figure, the real strategy
returns the fully determined successful result. -/
theorem measure_command_ok (api_key : Option String) (net : HttpOutcome)
    (cmd : List String) (child : ChildOutcome) (duration : ℚ)
    (he : 0 ≤ calculate_energy_consumption child.cpu_usage_samples
      child.memory_usage_samples duration)
    (hc : 0 ≤ calculate_energy_consumption child.cpu_usage_samples
        child.memory_usage_samples duration *
      ((ElectricityMapsClient.get_carbon_intensity api_key net).1 / 1000))
    (hd : 0 ≤ duration) :
    (EnergyMeasurer.measure_command api_key net cmd child duration).1 =
      .ok ⟨calculate_energy_consumption child.cpu_usage_samples
             child.memory_usage_samples duration,
           calculate_energy_consumption child.cpu_usage_samples
               child.memory_usage_samples duration *
             ((ElectricityMapsClient.get_carbon_intensity api_key net).1 / 1000),
           duration⟩ := by
  simp only [EnergyMeasurer.measure_command]
  rw [mk_measurement_result_ok _ _ _ he hc hd]

/-- C1: the energy estimate follows the fixed linear power model of the
specification — fallback averages (5% CPU, 0.05 GB) on an empty sample
list, otherwise the means of the `cpu_percent` values and of the
`memory_rss_bytes` values divided by `2 ^ 30`, combined as
`((15 + avg_cpu * 0.5) + avg_memory_gb * 3 + 20) * (duration / 3600) / 1000`
before flooring; and with empty samples at duration 3600 s the estimate is
exactly `0.03765` kWh. -/
theorem estimator_matches_spec_model (samples : List Sample) (duration : ℚ) :
    calculate_energy_consumption (samples.map Sample.cpu_percent)
        (samples.map Sample.memory_rss_bytes) duration =
      estimate_from_spec samples duration ∧
    calculate_energy_consumption [] [] 3600 = 3765 / 100000 := by
  constructor
  · unfold calculate_energy_consumption estimate_from_spec
    cases samples with
    | nil => simp
    | cons s rest => simp [List.length_map]; norm_num
  · norm_num [calculate_energy_consumption]

/-- C2: constructing a `MeasurementResult` fails exactly when at least one
field is negative (the check is made at construction time), and on
non-negative fields construction succeeds and `to_dict` returns exactly
the three keys `energy_kwh`, `co2_kg`, `duration_s` holding exactly the
constructed values. -/
theorem measurement_result_contract (e c d : ℚ) :
    ((mk_measurement_result e c d).isOk = false ↔ e < 0 ∨ c < 0 ∨ d < 0) ∧
    (0 ≤ e → 0 ≤ c → 0 ≤ d →
      mk_measurement_result e c d = .ok ⟨e, c, d⟩ ∧
      MeasurementResult.to_dict ⟨e, c, d⟩ =
        [("energy_kwh", e), ("co2_kg", c), ("duration_s", d)]) := by
  constructor
  · unfold mk_measurement_result
    split_ifs with h1 h2 h3
    · simp [Except.isOk, Except.toBool, h1]
    · simp [Except.isOk, Except.toBool, h2]
    · simp [Except.isOk, Except.toBool, h3]
    · simp [Except.isOk, Except.toBool, h1, h2, h3]
  · intro he hc hd
    exact ⟨mk_measurement_result_ok e c d he hc hd, rfl⟩

/-- Witness for C2 at the concrete non-negative triple `(1, 2, 3)`. -/
theorem measurement_result_contract_witness :
    mk_measurement_result 1 2 3 = .ok ⟨1, 2, 3⟩ ∧
    MeasurementResult.to_dict ⟨1, 2, 3⟩ =
      [("energy_kwh", 1), ("co2_kg", 2), ("duration_s", 3)] :=
  (measurement_result_contract 1 2 3).2 (by norm_num) (by norm_num) (by norm_num)

/-- C3: `get_carbon_intensity` never raises — it is a total function —
and on every failure path it returns the default `400`: with no
credential it returns `400` with an empty effect trace (no network access
attempted), and with any credential an exception, a non-200 status, or a
200 response lacking the numeric field all yield `400`. -/
theorem carbon_intensity_never_raises (api_key : Option String) (net : HttpOutcome) :
    ElectricityMapsClient.get_carbon_intensity none net = (400, []) ∧
    (net.isFailure = true →
      (ElectricityMapsClient.get_carbon_intensity api_key net).1 = 400) := by
  constructor
  · rfl
  · intro hfail
    cases api_key with
    | none => rfl
    | some k =>
      cases net with
      | exn => rfl
      | response status body =>
        simp only [HttpOutcome.isFailure, Bool.or_eq_true, decide_eq_true_eq,
          Option.isNone_iff_eq_none, ne_eq] at hfail
        rcases hfail with h | h
        · simp [ElectricityMapsClient.get_carbon_intensity, h,
            DEFAULT_CARBON_INTENSITY]
        · subst h
          by_cases hs : status = 200 <;>
            simp [ElectricityMapsClient.get_carbon_intensity, hs,
              DEFAULT_CARBON_INTENSITY]

/-- Witness for C3: no credential with a network exception, and a
credential with a network exception, both yield `400`. -/
theorem carbon_intensity_never_raises_witness :
    ElectricityMapsClient.get_carbon_intensity none HttpOutcome.exn = (400, []) ∧
    (ElectricityMapsClient.get_carbon_intensity (some "k") HttpOutcome.exn).1 = 400 :=
  ⟨(carbon_intensity_never_raises none HttpOutcome.exn).1,
   (carbon_intensity_never_raises (some "k") HttpOutcome.exn).2 rfl⟩

/-- C4: `measure_command_execution` fails with the invalid-input error for
an absent (`none`) command and for the empty command, with an empty effect
trace (so before any child process is spawned); for any non-empty command
that error is never the outcome. -/
theorem command_validated_before_spawn (test_env api_key : Option String)
    (net : HttpOutcome) (child : ChildOutcome) (duration : ℚ)
    (command : Option (List String)) :
    ((command = none ∨ command = some []) →
      measure_command_execution test_env api_key net child duration command =
        (.error "Command cannot be empty", [])) ∧
    (∀ cmd, command = some cmd → cmd ≠ [] →
      (measure_command_execution test_env api_key net child duration command).1 ≠
        .error "Command cannot be empty") := by
  constructor
  · rintro (rfl | rfl)
    · rfl
    · rfl
  · rintro cmd rfl hne
    simp only [measure_command_execution]
    rw [if_neg fun h => hne (List.isEmpty_iff.mp h)]
    split_ifs
    · exact mk_measurement_result_ne_cmd_error _ _ _
    · exact mk_measurement_result_ne_cmd_error _ _ _

/-- Witness for C4 at the absent command, the empty command, and the
non-empty command `["echo"]`. -/
theorem command_validated_before_spawn_witness :
    measure_command_execution none none HttpOutcome.exn ChildOutcome.launchFailed 1
        none =
      (.error "Command cannot be empty", []) ∧
    measure_command_execution none none HttpOutcome.exn ChildOutcome.launchFailed 1
        (some []) =
      (.error "Command cannot be empty", []) ∧
    (measure_command_execution none none HttpOutcome.exn ChildOutcome.launchFailed 1
        (some ["echo"])).1 ≠
      .error "Command cannot be empty" :=
  ⟨(command_validated_before_spawn none none HttpOutcome.exn ChildOutcome.launchFailed
      1 none).1 (Or.inl rfl),
   (command_validated_before_spawn none none HttpOutcome.exn ChildOutcome.launchFailed
      1 (some [])).1 (Or.inr rfl),
   (command_validated_before_spawn none none HttpOutcome.exn ChildOutcome.launchFailed
      1 (some ["echo"])).2 ["echo"] rfl (by simp)⟩

/-- C5: when the child process fails to launch, the real strategy absorbs
the exception: it proceeds with exactly one synthetic sample (5% CPU and
`50 * 1024 * 1024` bytes RSS), estimates over the real elapsed duration,
and returns a successful `MeasurementResult` with all three fields
non-negative. -/
theorem launch_failure_degrades_gracefully (api_key : Option String)
    (net : HttpOutcome) (command : List String) (duration : ℚ)
    (hd : 0 ≤ duration)
    (hci : 0 ≤ (ElectricityMapsClient.get_carbon_intensity api_key net).1) :
    (EnergyMeasurer.measure_command api_key net command ChildOutcome.launchFailed
        duration).1 =
      .ok ⟨calculate_energy_consumption [5] [50 * 1024 * 1024] duration,
           calculate_energy_consumption [5] [50 * 1024 * 1024] duration *
             ((ElectricityMapsClient.get_carbon_intensity api_key net).1 / 1000),
           duration⟩ ∧
    0 ≤ calculate_energy_consumption [5] [50 * 1024 * 1024] duration ∧
    0 ≤ calculate_energy_consumption [5] [50 * 1024 * 1024] duration *
        ((ElectricityMapsClient.get_carbon_intensity api_key net).1 / 1000) := by
  have he : (0:ℚ) ≤ calculate_energy_consumption [5] [50 * 1024 * 1024] duration :=
    le_trans (by norm_num) (floor_le_calculate _ _ _)
  have hc : (0:ℚ) ≤ calculate_energy_consumption [5] [50 * 1024 * 1024] duration *
      ((ElectricityMapsClient.get_carbon_intensity api_key net).1 / 1000) :=
    mul_nonneg he (div_nonneg hci (by norm_num))
  exact ⟨measure_command_ok api_key net command ChildOutcome.launchFailed duration
    he hc hd, he, hc⟩

/-- Witness for C5: a failed launch with no credential and duration 1 s. -/
theorem launch_failure_degrades_gracefully_witness :
    (EnergyMeasurer.measure_command none HttpOutcome.exn ["bad"]
        ChildOutcome.launchFailed 1).1 =
      .ok ⟨calculate_energy_consumption [5] [50 * 1024 * 1024] 1,
           calculate_energy_consumption [5] [50 * 1024 * 1024] 1 *
             ((ElectricityMapsClient.get_carbon_intensity none HttpOutcome.exn).1 /
               1000),
           1⟩ :=
  (launch_failure_degrades_gracefully none HttpOutcome.exn ["bad"] 1 (by norm_num)
    (by norm_num [ElectricityMapsClient.get_carbon_intensity,
      DEFAULT_CARBON_INTENSITY])).1

/-- C6: the estimator's output is never below `0.000001` kWh for any
sample lists and any duration, and at duration 0 it is exactly
`0.000001`. -/
theorem energy_floor (cpu_samples : List ℚ) (memory_samples : List ℤ)
    (duration : ℚ) :
    1/1000000 ≤ calculate_energy_consumption cpu_samples memory_samples duration ∧
    calculate_energy_consumption cpu_samples memory_samples 0 = 1/1000000 := by
  refine ⟨floor_le_calculate _ _ _, ?_⟩
  unfold calculate_energy_consumption
  norm_num

/-- C7: the value `"1"` of the test-mode toggle selects the stub strategy,
which returns exactly `0.001` kWh and `0.0005` kg with the measured
wall-clock duration, for every command, every child outcome (any failure
of the child is absorbed) and every external state; any other value of the
toggle, including unset, selects the real strategy. -/
theorem test_mode_strategy (test_env api_key : Option String) (net : HttpOutcome)
    (child : ChildOutcome) (duration : ℚ) (cmd : List String)
    (hcmd : cmd ≠ []) (hdur : 0 < duration) :
    (test_env = some "1" →
      measure_command_execution test_env api_key net child duration (some cmd) =
        (.ok ⟨1/1000, 1/2000, duration⟩, [Effect.spawnProcess cmd])) ∧
    (test_env ≠ some "1" →
      measure_command_execution test_env api_key net child duration (some cmd) =
        EnergyMeasurer.measure_command api_key net cmd child duration) := by
  constructor
  · intro h
    simp only [measure_command_execution]
    rw [if_neg fun hh => hcmd (List.isEmpty_iff.mp hh), if_pos h]
    simp only [StubMeasurer.measure_command]
    rw [mk_measurement_result_ok _ _ _ (by norm_num) (by norm_num) (le_of_lt hdur)]
  · intro hne
    simp only [measure_command_execution]
    rw [if_neg fun hh => hcmd (List.isEmpty_iff.mp hh), if_neg hne]

/-- Witness for C7: toggle `"1"` gives the stub figures, toggle `"0"`
dispatches to the real strategy. -/
theorem test_mode_strategy_witness :
    measure_command_execution (some "1") none HttpOutcome.exn (ChildOutcome.ran [])
        1 (some ["echo", "hello"]) =
      (.ok ⟨1/1000, 1/2000, 1⟩, [Effect.spawnProcess ["echo", "hello"]]) ∧
    measure_command_execution (some "0") none HttpOutcome.exn (ChildOutcome.ran [])
        1 (some ["echo", "hello"]) =
      EnergyMeasurer.measure_command none HttpOutcome.exn ["echo", "hello"]
        (ChildOutcome.ran []) 1 :=
  ⟨(test_mode_strategy (some "1") none HttpOutcome.exn (ChildOutcome.ran []) 1
      ["echo", "hello"] (by simp) (by norm_num)).1 rfl,
   (test_mode_strategy (some "0") none HttpOutcome.exn (ChildOutcome.ran []) 1
      ["echo", "hello"] (by simp) (by norm_num)).2 (by simp)⟩

/-- C8: every successful result of the real strategy has
`co2_kg = energy_kwh * (carbon_intensity / 1000)` with `energy_kwh` the
estimator's output on the collected samples and measured duration and the
carbon intensity the value obtained from the provider. -/
theorem real_mode_co2_formula (api_key : Option String) (net : HttpOutcome)
    (cmd : List String) (child : ChildOutcome) (duration : ℚ)
    (r : MeasurementResult)
    (h : (EnergyMeasurer.measure_command api_key net cmd child duration).1 = .ok r) :
    r.energy_kwh = calculate_energy_consumption child.cpu_usage_samples
        child.memory_usage_samples duration ∧
    r.co2_kg = r.energy_kwh *
      ((ElectricityMapsClient.get_carbon_intensity api_key net).1 / 1000) := by
  simp only [EnergyMeasurer.measure_command] at h
  have hr := mk_measurement_result_ok_inv _ _ _ _ h
  subst hr
  exact ⟨rfl, rfl⟩

/-- Witness for C8 at a concrete successful real-mode measurement. -/
theorem real_mode_co2_formula_witness :
    (⟨calculate_energy_consumption [5] [50 * 1024 * 1024] 1,
      calculate_energy_consumption [5] [50 * 1024 * 1024] 1 *
        ((ElectricityMapsClient.get_carbon_intensity none HttpOutcome.exn).1 / 1000),
      1⟩ : MeasurementResult).co2_kg =
      (⟨calculate_energy_consumption [5] [50 * 1024 * 1024] 1,
        calculate_energy_consumption [5] [50 * 1024 * 1024] 1 *
          ((ElectricityMapsClient.get_carbon_intensity none HttpOutcome.exn).1 /
            1000),
        1⟩ : MeasurementResult).energy_kwh *
        ((ElectricityMapsClient.get_carbon_intensity none HttpOutcome.exn).1 / 1000) :=
  (real_mode_co2_formula none HttpOutcome.exn ["x"] ChildOutcome.launchFailed 1 _
    (measure_command_ok none HttpOutcome.exn ["x"] ChildOutcome.launchFailed 1
      (le_trans (by norm_num) (floor_le_calculate _ _ _))
      (mul_nonneg (le_trans (by norm_num) (floor_le_calculate _ _ _))
        (by norm_num [ElectricityMapsClient.get_carbon_intensity,
          DEFAULT_CARBON_INTENSITY]))
      (by norm_num))).2

/-- C9: under the preconditions that the carbon intensity obtained is
non-negative and the measured duration is non-negative, the final
construction in the real strategy never fails validation: the result is
always a success with `energy_kwh ≥ 0.000001`, `co2_kg ≥ 0` and
`duration_s ≥ 0`. -/
theorem real_mode_validation_unreachable (api_key : Option String)
    (net : HttpOutcome) (cmd : List String) (child : ChildOutcome) (duration : ℚ)
    (hci : 0 ≤ (ElectricityMapsClient.get_carbon_intensity api_key net).1)
    (hdur : 0 ≤ duration) :
    ∃ r, (EnergyMeasurer.measure_command api_key net cmd child duration).1 = .ok r ∧
      1/1000000 ≤ r.energy_kwh ∧ 0 ≤ r.co2_kg ∧ 0 ≤ r.duration_s := by
  have hfloor := floor_le_calculate child.cpu_usage_samples
    child.memory_usage_samples duration
  have he := le_trans (by norm_num : (0:ℚ) ≤ 1/1000000) hfloor
  have hc := mul_nonneg he (div_nonneg hci (by norm_num : (0:ℚ) ≤ 1000))
  exact ⟨_, measure_command_ok api_key net cmd child duration he hc hdur,
    hfloor, hc, hdur⟩

/-- Witness for C9 at a zero-sample run with the default intensity. -/
theorem real_mode_validation_unreachable_witness :
    ∃ r, (EnergyMeasurer.measure_command none HttpOutcome.exn ["echo"]
        (ChildOutcome.ran []) 2).1 = .ok r ∧
      1/1000000 ≤ r.energy_kwh ∧ 0 ≤ r.co2_kg ∧ 0 ≤ r.duration_s :=
  real_mode_validation_unreachable none HttpOutcome.exn ["echo"]
    (ChildOutcome.ran []) 2
    (by norm_num [ElectricityMapsClient.get_carbon_intensity,
      DEFAULT_CARBON_INTENSITY])
    (by norm_num)

/-- C10: the estimator applies the fallback averages whenever either of
its two parallel lists is empty, not only when both are: with at least one
empty list the result coincides with the both-empty result, and equals the
fallback computation outright, ignoring the values of the non-empty
list. -/
theorem fallback_when_either_list_empty (cpu_samples : List ℚ)
    (memory_samples : List ℤ) (duration : ℚ)
    (h : cpu_samples = [] ∨ memory_samples = []) :
    calculate_energy_consumption cpu_samples memory_samples duration =
      calculate_energy_consumption [] [] duration ∧
    calculate_energy_consumption cpu_samples memory_samples duration =
      max (((15 + 5 * (1/2)) + (1/20) * 3 + 20) * (duration / 3600) / 1000)
        (1/1000000) := by
  have h2 : ∀ (c : List ℚ) (m : List ℤ), (c = [] ∨ m = []) →
      calculate_energy_consumption c m duration =
        max (((15 + 5 * (1/2)) + (1/20) * 3 + 20) * (duration / 3600) / 1000)
          (1/1000000) := by
    rintro c m (rfl | rfl) <;> simp [calculate_energy_consumption]
  exact ⟨(h2 _ _ h).trans (h2 [] [] (Or.inl rfl)).symm, h2 _ _ h⟩

/-- Witness for C10: a non-empty CPU list with an empty memory list uses
the fallback, ignoring the CPU value `100`. -/
theorem fallback_when_either_list_empty_witness :
    calculate_energy_consumption [100] [] 3600 =
      calculate_energy_consumption [] [] 3600 ∧
    calculate_energy_consumption [100] [] 3600 =
      max (((15 + 5 * (1/2)) + (1/20) * 3 + 20) * ((3600:ℚ) / 3600) / 1000)
        (1/1000000) :=
  fallback_when_either_list_empty [100] [] 3600 (Or.inr rfl)
